import Mathlib

/-!
Verification of the real-time order-event notification channel of the
Rai Guest House platform: server-side liveness monitor, registry and
broadcaster, mutation interceptor (server/routes.ts), and the client
Connection Manager / Event Dispatcher (use-websocket.tsx and
use-websocket-context.tsx), embedded shallowly and checked against the
design specification.
-/

/-- Transport handle ready states, as in the WebSocket API constants. -/
inductive ReadyState
  | CONNECTING
  | OPEN
  | CLOSING
  | CLOSED
deriving DecidableEq

namespace Backoff

/-- Delay computed inside the close handler after the attempt counter has been
incremented: Math.min(1000 * Math.pow(2, attempts - 1), 30000). -/
def backoffDelay (attempts : Nat) : Nat :=
  min (1000 * 2 ^ (attempts - 1)) 30000

/-- Effect of one unexpected close with auto-reconnect on, component mounted and
no timer pending: increment the attempt counter, then schedule a retry after
backoffDelay of the new counter.  Returns (new counter, scheduled delay). -/
def onCloseStep (attempts : Nat) : Nat × Nat :=
  let a := attempts + 1
  (a, backoffDelay a)

/-- Effect of the open handler on the attempt counter: reset to 0. -/
def onOpenAttempts (_attempts : Nat) : Nat := 0

/-- Delays scheduled by n consecutive unexpected closes, starting from a given
attempt counter value. -/
def closeDelays : Nat → Nat → List Nat
  | _, 0 => []
  | a, Nat.succ n =>
    let s := onCloseStep a
    s.2 :: closeDelays s.1 n

theorem closeDelays_get (a k m : Nat) :
    (closeDelays a (k + m + 1)).get? k = some (backoffDelay (a + k + 1)) := by
  induction k generalizing a with
  | zero => simp [closeDelays, onCloseStep]
  | succ k ih =>
    have h : k + 1 + m + 1 = (k + m + 1) + 1 := by omega
    rw [h]
    have hu : closeDelays a ((k + m + 1) + 1)
        = backoffDelay (a + 1) :: closeDelays (a + 1) (k + m + 1) := rfl
    rw [hu, List.get?_cons_succ, ih (a + 1)]
    have e : a + 1 + k + 1 = a + (k + 1) + 1 := by omega
    rw [e]

/-- C1: with auto-reconnect enabled and the component not unmounting, the delay
scheduled after the n-th consecutive unexpected close (position k = n - 1,
counting from a freshly reset counter) is min(1000 * 2^(n-1), 30000) ms; the
first seven delays are 1000, 2000, 4000, 8000, 16000, 30000, 30000; and a
successful open resets the counter to 0, so the next close schedules 1000 ms. -/
theorem backoff_sequence :
    (∀ k m : Nat,
        (closeDelays 0 (k + m + 1)).get? k = some (min (1000 * 2 ^ k) 30000))
  ∧ closeDelays 0 7 = [1000, 2000, 4000, 8000, 16000, 30000, 30000]
  ∧ (∀ a : Nat, closeDelays (onOpenAttempts a) 1 = [1000]) := by
  refine ⟨?_, ?_, ?_⟩
  · intro k m
    have h := closeDelays_get 0 k m
    rw [h]
    simp [backoffDelay]
  · decide
  · intro a
    show closeDelays 0 1 = [1000]
    decide

end Backoff

namespace OpenHandler

/-- Open handler of the client Connection Manager: it zeroes the reconnect
attempt counter first, then tests that same counter to decide whether to show
the reconnection-success toast.  Returns (new counter, toast shown). -/
def onOpen (showToasts : Bool) (_attempts : Nat) : Nat × Bool :=
  let attemptsAfterReset := 0
  (attemptsAfterReset, showToasts && decide (attemptsAfterReset > 0))

/-- C10: the success toast in the open handler is dead code: the handler resets
the attempt counter to 0 before testing counter > 0, so for every configuration
and every prior counter value the toast condition evaluates to false (and the
counter ends at 0). -/
theorem connected_toast_unreachable :
    ∀ (showToasts : Bool) (attempts : Nat),
      (onOpen showToasts attempts).2 = false ∧ (onOpen showToasts attempts).1 = 0 := by
  intro st a
  cases st <;> simp [onOpen]

end OpenHandler

namespace StatusValidation

/-- Status whitelist of updateSchema in PATCH /api/orders/:id/status
(routes file): z.string().refine over this list. -/
def allowedStatuses : List String := ["Pending", "Preparing", "Delivered"]

/-- Server-side status validation applied to the status field of a patch. -/
def statusAccepted (s : String) : Bool := allowedStatuses.contains s

/-- Status value sent by the client rejectOrder mutation:
patch body is status = "Rejected". -/
def rejectOrderStatus : String := "Rejected"

/-- Order status domain as stated by the specification data model. -/
def specStatusDomain : List String := ["Pending", "Preparing", "Delivered", "Rejected"]

/-- C8: the server accepts Pending, Preparing and Delivered, but rejects the
"Rejected" status that the client rejectOrder operation patches, even though
"Rejected" belongs to the status domain stated by the specification — the
reject-order request can never pass the server's validation. -/
theorem rejected_status_fails_validation :
    statusAccepted "Pending" = true
  ∧ statusAccepted "Preparing" = true
  ∧ statusAccepted "Delivered" = true
  ∧ specStatusDomain.contains rejectOrderStatus = true
  ∧ statusAccepted rejectOrderStatus = false := by
  decide

end StatusValidation

namespace Dispatcher

/-- Order snapshot carried by new-order and order-status-update envelopes. -/
structure OrderSnap where
  id : Nat
  status : String
  roomNumber : String
  mobileNumber : String
  name : String
deriving DecidableEq

/-- Locally remembered order context of a client (parsed from the stored
orderDetails JSON; fields may be absent). -/
structure LocalOrderCtx where
  roomNumber : Option String
  mobileNumber : Option String
deriving DecidableEq

/-- Inbound event envelope after successful parsing, tagged by type. -/
inductive InboundEvent
  | connectionMsg (message : String)
  | echo
  | newOrder (o : OrderSnap)
  | statusUpdate (o : OrderSnap)

/-- Outcome of the onmessage handler for one envelope: which registered
callback fired with which order, and whether a user-visible alert was shown. -/
structure DispatchResult where
  newOrderCallback : Option OrderSnap
  statusCallback : Option OrderSnap
  alerted : Bool
deriving DecidableEq

/-- Relevance test for status updates: the remembered room number matches the
event's order, or the remembered mobile number does (strict equality, so an
absent remembered field never matches). -/
def isMyOrder (ctx : LocalOrderCtx) (o : OrderSnap) : Bool :=
  decide (ctx.roomNumber = some o.roomNumber)
    || decide (ctx.mobileNumber = some o.mobileNumber)

/-- The onmessage dispatch of the client Connection Manager: callbacks fire per
type unconditionally; an alert is shown for new-order only to administrative
sessions, and for order-status-update to administrative sessions or when
isMyOrder holds; connection and echo envelopes never alert. -/
def onMessage (isAdmin showToasts : Bool) (ctx : LocalOrderCtx)
    (e : InboundEvent) : DispatchResult :=
  match e with
  | .newOrder o =>
      { newOrderCallback := some o
        statusCallback := none
        alerted := showToasts && isAdmin }
  | .statusUpdate o =>
      { newOrderCallback := none
        statusCallback := some o
        alerted := showToasts && (isAdmin || isMyOrder ctx o) }
  | .connectionMsg _ =>
      { newOrderCallback := none, statusCallback := none, alerted := false }
  | .echo =>
      { newOrderCallback := none, statusCallback := none, alerted := false }

/-- Non-admin client that remembers room 204. -/
def ctx204 : LocalOrderCtx := { roomNumber := some "204", mobileNumber := some "9000000001" }

/-- Non-admin client that remembers room 101 (different mobile number too). -/
def ctx101 : LocalOrderCtx := { roomNumber := some "101", mobileNumber := some "9000000002" }

/-- Status update event for the order of room 204. -/
def order204 : OrderSnap :=
  { id := 1, status := "Preparing", roomNumber := "204"
    mobileNumber := "9000000001", name := "Guest" }

/-- C7: with alerts enabled (the default), an order-status-update alert is
surfaced iff the session is administrative or its remembered room or mobile
number matches the event's order; a new-order alert is surfaced iff the session
is administrative; the registered callbacks fire regardless of this filtering;
and concretely the room-204 update alerts the non-admin client remembering room
204 but not the one remembering room 101. -/
theorem status_update_filtering :
    (∀ (admin : Bool) (ctx : LocalOrderCtx) (o : OrderSnap),
        ((onMessage admin true ctx (.statusUpdate o)).alerted = true
          ↔ (admin = true ∨ ctx.roomNumber = some o.roomNumber
              ∨ ctx.mobileNumber = some o.mobileNumber)))
  ∧ (∀ (admin : Bool) (ctx : LocalOrderCtx) (o : OrderSnap),
        ((onMessage admin true ctx (.newOrder o)).alerted = true ↔ admin = true))
  ∧ (∀ (admin st : Bool) (ctx : LocalOrderCtx) (o : OrderSnap),
        (onMessage admin st ctx (.newOrder o)).newOrderCallback = some o
      ∧ (onMessage admin st ctx (.statusUpdate o)).statusCallback = some o)
  ∧ (onMessage false true ctx204 (.statusUpdate order204)).alerted = true
  ∧ (onMessage false true ctx101 (.statusUpdate order204)).alerted = false := by
  refine ⟨?_, ?_, ?_, ?_, ?_⟩
  · intro admin ctx o
    simp [onMessage, isMyOrder]
  · intro admin ctx o
    simp [onMessage]
  · intro admin st ctx o
    exact ⟨rfl, rfl⟩
  · decide
  · decide

end Dispatcher

namespace Broadcaster

/-- Server-side session: one per open transport connection.  The sendFails
field models whether send on this session throws. -/
structure Session where
  id : Nat
  readyState : ReadyState
  sendFails : Bool
deriving DecidableEq

/-- Accumulated outcome of one broadcast: identifiers of sessions the envelope
was delivered to, and identifiers of sessions terminated on send failure. -/
structure BroadcastLog where
  delivered : List Nat
  terminated : List Nat
deriving DecidableEq

/-- One iteration of the broadcast loop: skip sessions that are not OPEN; for
an OPEN session try to send, and on failure catch the error and terminate that
session only. -/
def sendTo (log : BroadcastLog) (s : Session) : BroadcastLog :=
  if s.readyState = ReadyState.OPEN then
    if s.sendFails then { log with terminated := log.terminated ++ [s.id] }
    else { log with delivered := log.delivered ++ [s.id] }
  else log

/-- The broadcast helper of the interceptors: iterate over every registered
client, attempting delivery to each currently-open one. -/
def broadcast (sessions : List Session) : BroadcastLog :=
  sessions.foldl sendTo { delivered := [], terminated := [] }

/-- A session receives the envelope iff it is OPEN and its send succeeds. -/
def deliversTo (s : Session) : Bool :=
  decide (s.readyState = ReadyState.OPEN) && !s.sendFails

/-- A session is terminated by the broadcast iff it is OPEN and its send throws. -/
def terminatedBy (s : Session) : Bool :=
  decide (s.readyState = ReadyState.OPEN) && s.sendFails

theorem broadcast_foldl (sessions : List Session) (log : BroadcastLog) :
    sessions.foldl sendTo log =
      { delivered := log.delivered ++ (sessions.filter deliversTo).map Session.id
        terminated := log.terminated ++ (sessions.filter terminatedBy).map Session.id } := by
  induction sessions generalizing log with
  | nil => simp
  | cons s rest ih =>
    rw [List.foldl_cons, ih]
    by_cases hO : s.readyState = ReadyState.OPEN
    · by_cases hF : s.sendFails = true
      · simp [sendTo, deliversTo, terminatedBy, hO, hF]
      · simp [sendTo, deliversTo, terminatedBy, hO, hF]
    · simp [sendTo, deliversTo, terminatedBy, hO]

/-- Session A: open, send succeeds. -/
def sessA : Session := { id := 1, readyState := ReadyState.OPEN, sendFails := false }

/-- Session B: open, send always throws. -/
def sessB : Session := { id := 2, readyState := ReadyState.OPEN, sendFails := true }

/-- Session C: open, send succeeds. -/
def sessC : Session := { id := 3, readyState := ReadyState.OPEN, sendFails := false }

/-- C3: for every broadcast, delivery reaches exactly the registered open
sessions whose send succeeds and terminates exactly the open sessions whose
send throws (a send failure on one session never aborts delivery to the
others); concretely, with open sessions A, B, C where B's send throws, A and C
receive the envelope and B alone is terminated. -/
theorem broadcast_isolation :
    (∀ sessions : List Session,
        (broadcast sessions).delivered = (sessions.filter deliversTo).map Session.id
      ∧ (broadcast sessions).terminated = (sessions.filter terminatedBy).map Session.id)
  ∧ broadcast [sessA, sessB, sessC] = { delivered := [1, 3], terminated := [2] } := by
  constructor
  · intro sessions
    rw [broadcast, broadcast_foldl]
    exact ⟨by simp, by simp⟩
  · decide

end Broadcaster

namespace Interceptor

/-- Wire envelope constructed by the interceptors before broadcasting. -/
structure Envelope (α : Type) where
  type : String
  order : α
deriving DecidableEq

/-- Modelled from the spec: the underlying order-management collaborator
operations live in server/storage.ts, which is not among the sources; the spec
gives their contracts as createOrder(data) -> Order | Error and
updateOrderStatus(id, patch) -> Order | null.  The wrappers below therefore
take the underlying call's outcome as a parameter of exactly that shape. -/
def UnderlyingOutcome (ε α : Type) : Type := Except ε α

/-- The intercepted storage.createOrder: await the original operation first;
if it throws the exception propagates and nothing is broadcast; on success
construct one new-order envelope carrying the created order and broadcast it,
then return the original result unchanged. -/
def createOrderWrapped (ε α : Type) (orig : Except ε α) :
    Except ε α × List (Envelope α) :=
  match orig with
  | .error e => (.error e, [])
  | .ok o => (.ok o, [{ type := "new-order", order := o }])

/-- The intercepted storage.updateOrderStatus: await the original operation
first; if it throws the exception propagates and nothing is broadcast; only if
the result is non-null construct one order-status-update envelope and broadcast
it; the original result is returned unchanged. -/
def updateOrderStatusWrapped (ε α : Type) (orig : Except ε (Option α)) :
    Except ε (Option α) × List (Envelope α) :=
  match orig with
  | .error e => (.error e, [])
  | .ok none => (.ok none, [])
  | .ok (some o) => (.ok (some o), [{ type := "order-status-update", order := o }])

/-- C2: both interceptors return the underlying operation's result unchanged;
on success with a non-null result exactly one envelope of the right type
carrying the committed order snapshot is broadcast, and on a thrown error or a
null result zero envelopes are emitted; the broadcast fans the envelope out to
every currently open session whose send succeeds. -/
theorem mutation_interceptor_broadcast :
    (∀ (ε α : Type) (o : α),
        createOrderWrapped ε α (.ok o) = (.ok o, [{ type := "new-order", order := o }]))
  ∧ (∀ (ε α : Type) (e : ε),
        createOrderWrapped ε α (.error e) = (.error e, []))
  ∧ (∀ (ε α : Type) (o : α),
        updateOrderStatusWrapped ε α (.ok (some o))
          = (.ok (some o), [{ type := "order-status-update", order := o }]))
  ∧ (∀ (ε α : Type),
        updateOrderStatusWrapped ε α (.ok none) = (.ok none, []))
  ∧ (∀ (ε α : Type) (e : ε),
        updateOrderStatusWrapped ε α (.error e) = (.error e, []))
  ∧ (∀ (ε α : Type) (orig : Except ε α),
        (createOrderWrapped ε α orig).1 = orig)
  ∧ (∀ (ε α : Type) (orig : Except ε (Option α)),
        (updateOrderStatusWrapped ε α orig).1 = orig)
  ∧ (∀ sessions : List Broadcaster.Session,
        (Broadcaster.broadcast sessions).delivered
          = (sessions.filter Broadcaster.deliversTo).map Broadcaster.Session.id) := by
  refine ⟨fun ε α o => rfl, fun ε α e => rfl, fun ε α o => rfl,
          fun ε α => rfl, fun ε α e => rfl, ?_, ?_, ?_⟩
  · intro ε α orig
    cases orig <;> rfl
  · intro ε α orig
    rcases orig with e | o
    · rfl
    · cases o <;> rfl
  · intro sessions
    rw [Broadcaster.broadcast, Broadcaster.broadcast_foldl]
    simp

end Interceptor

namespace Liveness

/-- Server-side view of one connected client in the liveness monitor: the
isAlive heartbeat flag and whether ping on this socket throws. -/
structure WClient where
  id : Nat
  isAlive : Bool
  pingFails : Bool
deriving DecidableEq

/-- Per-session outcome of one monitor cycle. -/
inductive ProbeOutcome
  | terminatedNoPong
  | probed
  | terminatedPingError
deriving DecidableEq

/-- Treatment of one client inside pingClients: if isAlive is false the client
missed the previous probe and is terminated at once; otherwise isAlive is set
to false and a ping is sent; if the ping throws, the error is caught and the
client is terminated instead of retried.  Returns the outcome and the client's
surviving state, if any. -/
def pingOne (c : WClient) : ProbeOutcome × Option WClient :=
  if c.isAlive = false then (.terminatedNoPong, none)
  else
    if c.pingFails then (.terminatedPingError, none)
    else (.probed, some { c with isAlive := false })

/-- The 30-second monitor sweep: visit every connected client in turn,
accumulating each client's outcome; errors are handled per client so the loop
always reaches the end of the list. -/
def pingClients (cs : List WClient) : List (Nat × ProbeOutcome) :=
  cs.foldl (fun log c => log ++ [(c.id, (pingOne c).1)]) []

theorem pingClients_foldl (cs : List WClient) (log : List (Nat × ProbeOutcome)) :
    cs.foldl (fun log c => log ++ [(c.id, (pingOne c).1)]) log
      = log ++ cs.map (fun c => (c.id, (pingOne c).1)) := by
  induction cs generalizing log with
  | nil => simp
  | cons c rest ih =>
    rw [List.foldl_cons, ih]
    simp

/-- C4: in each liveness cycle every connected session is handled exactly once
and independently of the others' outcomes: a session with isAlive = false is
terminated without a probe, a live session gets isAlive cleared and a probe, a
probe failure terminates that session rather than retrying; a failing probe in
the middle of the list does not prevent probing of the remaining sessions. -/
theorem liveness_cycle :
    (∀ cs : List WClient,
        pingClients cs = cs.map (fun c => (c.id, (pingOne c).1)))
  ∧ (∀ i pf, pingOne { id := i, isAlive := false, pingFails := pf }
        = (.terminatedNoPong, none))
  ∧ (∀ i, pingOne { id := i, isAlive := true, pingFails := true }
        = (.terminatedPingError, none))
  ∧ (∀ i, pingOne { id := i, isAlive := true, pingFails := false }
        = (.probed, some { id := i, isAlive := false, pingFails := false }))
  ∧ pingClients
        [{ id := 1, isAlive := true, pingFails := false },
         { id := 2, isAlive := true, pingFails := true },
         { id := 3, isAlive := true, pingFails := false }]
      = [(1, .probed), (2, .terminatedPingError), (3, .probed)] := by
  refine ⟨?_, fun i pf => rfl, fun i => rfl, fun i => rfl, ?_⟩
  · intro cs
    rw [pingClients, pingClients_foldl]
    simp
  · decide

end Liveness

namespace Provider

/-- Client Connection State of the context-provider Connection Manager:
component refs, socket handle (tracked by ready state), pending-timer flag,
attempt counter, rate-limit timestamp, plus a counter of WebSocket
constructions performed so far. -/
structure CMState where
  mounted : Bool
  isUnmounting : Bool
  socketRef : Option ReadyState
  reconnectTimeout : Bool
  reconnectAttempts : Nat
  lastConnectionAttempt : Nat
  socketsCreated : Nat
deriving DecidableEq

/-- State before the owning component ever mounts. -/
def initialCM : CMState where
  mounted := false
  isUnmounting := false
  socketRef := none
  reconnectTimeout := false
  reconnectAttempts := 0
  lastConnectionAttempt := 0
  socketsCreated := 0

/-- Ready-state test used by the guards: socket present and OPEN or CONNECTING. -/
def isOpenOrConnecting : Option ReadyState → Bool
  | some ReadyState.OPEN => true
  | some ReadyState.CONNECTING => true
  | _ => false

/-- The provider's connectSocket, guards in source order: (1) the process-wide
isProviderMounted flag is set while this instance holds no handle — decline;
(2) unmounting — decline; (3) handle already OPEN or CONNECTING — decline;
(4) previous attempt less than 3000 ms ago — decline; otherwise record the
attempt timestamp and construct a new WebSocket.  The Bool result records
whether the call proceeded to an actual transport open attempt. -/
def connectSocketA (flag : Bool) (now : Nat) (p : CMState) : CMState × Bool :=
  if flag = true ∧ p.socketRef = none then (p, false)
  else if p.isUnmounting = true then (p, false)
  else if isOpenOrConnecting p.socketRef = true then (p, false)
  else if now - p.lastConnectionAttempt < 3000 then (p, false)
  else
    ({ p with lastConnectionAttempt := now
              socketRef := some ReadyState.CONNECTING
              socketsCreated := p.socketsCreated + 1 }, true)

/-- State effect of connectSocket. -/
def connectSocket (flag : Bool) (now : Nat) (p : CMState) : CMState :=
  (connectSocketA flag now p).1

theorem connectSocket_guard (now : Nat) (p : CMState) (h : p.socketRef = none) :
    connectSocket true now p = p := by
  simp [connectSocket, connectSocketA, h]

/-- C6 (amended): in the context-provider copy of the Connection Manager — the
one carrying lastConnectionAttemptRef — a connect attempt that proceeds records
its initiation time, and any later connect call made less than 3000 ms after
that time is rejected before reaching a transport open attempt, whatever the
first attempt's outcome left in the rest of the state and whatever the
ownership flag then is, so a pair of attempts within 3000 ms performs at most
one actual transport open.  The standalone hook copy performs no such rate
limiting (see the counterexample on the hook model below). -/
theorem rate_limit_rejects_second_attempt (flag : Bool) (p : CMState) (t1 : Nat)
    (h : (connectSocketA flag t1 p).2 = true) :
    (connectSocketA flag t1 p).1.lastConnectionAttempt = t1
  ∧ ∀ (g : Bool) (q : CMState) (t2 : Nat),
      q.lastConnectionAttempt = t1 → t2 - t1 < 3000 →
      (connectSocketA g t2 q).2 = false := by
  constructor
  · unfold connectSocketA at h ⊢
    split_ifs at h ⊢
    simp_all
  · intro g q t2 hq ht
    unfold connectSocketA
    split_ifs with h1 h2 h3 h4
    · rfl
    · rfl
    · rfl
    · rfl
    · exfalso
      rw [hq] at h4
      omega

/-- Concrete run of the previous theorem: from the initial state a first call at
t = 5000 proceeds to an open attempt, and a second call at t = 6000 on the
resulting state is rejected. -/
theorem rate_limit_rejects_second_attempt_witness :
    ((connectSocketA false 5000 initialCM).2 = true)
  ∧ ((connectSocketA false 6000 (connectSocketA false 5000 initialCM).1).2 = false) := by
  have h1 : (connectSocketA false 5000 initialCM).2 = true := by decide
  have h := rate_limit_rejects_second_attempt false initialCM 5000 h1
  exact ⟨h1, h.2 false (connectSocketA false 5000 initialCM).1 6000 h.1 (by decide)⟩

/-- Events of one provider instance: the mount effect (clear isUnmounting, set
the shared flag, connect), teardown, the visibilitychange listener, the backoff
timer firing, the exposed manual reconnect, and the socket close event. -/
inductive PEvent
  | mount (now : Nat)
  | unmountEv
  | visibility (now : Nat)
  | timerFire (now : Nat)
  | manualReconnect (now : Nat)
  | socketClosed

/-- One event of a provider instance acting on the shared isProviderMounted
flag and the instance state, as in use-websocket-context.tsx. -/
def step : PEvent → Bool × CMState → Bool × CMState
  | .mount now, (_, p) =>
      let p1 : CMState := { p with isUnmounting := false, mounted := true }
      (true, connectSocket true now p1)
  | .unmountEv, (_, p) =>
      (false, { p with isUnmounting := true, mounted := false
                       reconnectTimeout := false, socketRef := none })
  | .visibility now, (f, p) =>
      if p.mounted = true ∧ isOpenOrConnecting p.socketRef = false then
        (f, connectSocket f now { p with reconnectTimeout := false })
      else (f, p)
  | .timerFire now, (f, p) =>
      if p.reconnectTimeout = true then
        if p.isUnmounting = true then (f, { p with reconnectTimeout := false })
        else (f, connectSocket f now { p with reconnectTimeout := false })
      else (f, p)
  | .manualReconnect now, (f, p) =>
      if p.mounted = true then
        (f, connectSocket f now
          { p with reconnectAttempts := 0, socketRef := none, reconnectTimeout := false })
      else (f, p)
  | .socketClosed, (f, p) =>
      match p.socketRef with
      | none => (f, p)
      | some _ =>
        if p.isUnmounting = true then (f, { p with socketRef := some ReadyState.CLOSED })
        else
          if p.reconnectTimeout = false then
            (f, { p with socketRef := some ReadyState.CLOSED
                         reconnectAttempts := p.reconnectAttempts + 1
                         reconnectTimeout := true })
          else (f, { p with socketRef := some ReadyState.CLOSED })

/-- Reachability invariant of one provider instance: no handle is held, no
WebSocket was ever constructed, no retry timer is pending, and while mounted
the shared flag is set. -/
def Inv (g : Bool × CMState) : Prop :=
  g.2.socketRef = none ∧ g.2.socketsCreated = 0 ∧ g.2.reconnectTimeout = false
    ∧ (g.2.mounted = true → g.1 = true)

theorem step_preserves_Inv (e : PEvent) (g : Bool × CMState) (h : Inv g) :
    Inv (step e g) := by
  obtain ⟨f, p⟩ := g
  obtain ⟨hs, hc, ht, hm⟩ := h
  replace hs : p.socketRef = none := hs
  replace hc : p.socketsCreated = 0 := hc
  replace ht : p.reconnectTimeout = false := ht
  replace hm : p.mounted = true → f = true := hm
  cases e with
  | mount now =>
      simp only [step]
      rw [connectSocket_guard now { p with isUnmounting := false, mounted := true } hs]
      exact ⟨hs, hc, ht, fun _ => rfl⟩
  | unmountEv =>
      exact ⟨rfl, hc, rfl, fun hx => by cases hx⟩
  | visibility now =>
      simp only [step]
      split_ifs with hg
      · have hf : f = true := hm hg.1
        rw [hf, connectSocket_guard now { p with reconnectTimeout := false } hs]
        exact ⟨hs, hc, rfl, fun _ => rfl⟩
      · exact ⟨hs, hc, ht, hm⟩
  | timerFire now =>
      simp only [step]
      rw [if_neg]
      · exact ⟨hs, hc, ht, hm⟩
      · rw [ht]; simp
  | manualReconnect now =>
      simp only [step]
      split_ifs with hg
      · have hf : f = true := hm hg
        rw [hf, connectSocket_guard now
          { p with reconnectAttempts := 0, socketRef := none, reconnectTimeout := false } rfl]
        exact ⟨rfl, hc, rfl, fun _ => rfl⟩
      · exact ⟨hs, hc, ht, hm⟩
  | socketClosed =>
      simp only [step, hs]
      exact ⟨hs, hc, ht, hm⟩

theorem foldl_preserves_Inv (evts : List PEvent) (g : Bool × CMState) (h : Inv g) :
    Inv (evts.foldl (fun g e => step e g) g) := by
  induction evts generalizing g with
  | nil => exact h
  | cons e rest ih => exact ih _ (step_preserves_Inv e g h)

/-- Run of a single provider lifecycle: the mount effect first (it sets the
shared flag before the first connect), then any sequence of further events. -/
def runProvider (now0 : Nat) (evts : List PEvent) : Bool × CMState :=
  evts.foldl (fun g e => step e g) (step (.mount now0) (false, initialCM))

/-- C9: in every reachable state of the context-provider Connection Manager the
socket reference is still null and no WebSocket was ever constructed — the
mount effect raises the ownership flag before the first connect, so the
singleton guard declines every connect call of the provider itself, including
those from visibility recovery, the backoff timer and manual reconnect. -/
theorem provider_never_opens_socket :
    ∀ (now0 : Nat) (evts : List PEvent),
      (runProvider now0 evts).2.socketRef = none
    ∧ (runProvider now0 evts).2.socketsCreated = 0 := by
  intro now0 evts
  have h0 : Inv (false, initialCM) := ⟨rfl, rfl, rfl, fun hx => by cases hx⟩
  have h1 : Inv (step (.mount now0) (false, initialCM)) :=
    step_preserves_Inv _ _ h0
  have h2 : Inv (runProvider now0 evts) := foldl_preserves_Inv evts _ h1
  exact ⟨h2.1, h2.2.1⟩

end Provider

namespace Singleton

open Provider

/-- Events of a runtime with several provider instances, addressed by index;
the regime of concurrently mounted owning contexts, so teardown events are not
part of the alphabet. -/
inductive SEvent
  | mount (i : Nat) (now : Nat)
  | visibility (i : Nat) (now : Nat)
  | timerFire (i : Nat) (now : Nat)
  | manualReconnect (i : Nat) (now : Nat)
  | socketClosed (i : Nat)

/-- Instance index and per-instance event of a system event. -/
def toPEvent : SEvent → Nat × PEvent
  | .mount i now => (i, .mount now)
  | .visibility i now => (i, .visibility now)
  | .timerFire i now => (i, .timerFire now)
  | .manualReconnect i now => (i, .manualReconnect now)
  | .socketClosed i => (i, .socketClosed)

/-- One system step: the addressed instance runs its per-instance step against
the shared isProviderMounted flag; all other instances are untouched. -/
def sysStep (e : SEvent) (g : Bool × List CMState) : Bool × List CMState :=
  match g.2.get? (toPEvent e).1 with
  | none => g
  | some p =>
      let r := step (toPEvent e).2 (g.1, p)
      (r.1, g.2.set (toPEvent e).1 r.2)

/-- Run of a runtime holding n provider instances, flag initially clear. -/
def runSystem (n : Nat) (evts : List SEvent) : Bool × List CMState :=
  evts.foldl (fun g e => sysStep e g) (false, List.replicate n initialCM)

/-- Number of instances currently holding a transport handle (open or
connecting or otherwise). -/
def openHandles (ps : List CMState) : Nat :=
  (ps.filter (fun p => decide (p.socketRef ≠ none))).length

/-- System invariant: every instance satisfies the per-instance invariant
against the shared flag. -/
def SysInv (g : Bool × List CMState) : Prop :=
  ∀ p ∈ g.2, Inv (g.1, p)

theorem step_flag (pe : PEvent) (f : Bool) (p : CMState)
    (h : pe ≠ PEvent.unmountEv) :
    (step pe (f, p)).1 = f ∨ (step pe (f, p)).1 = true := by
  cases pe with
  | mount now => right; rfl
  | unmountEv => exact absurd rfl h
  | visibility now =>
      left; simp only [step]; split_ifs <;> rfl
  | timerFire now =>
      left; simp only [step]; split_ifs <;> rfl
  | manualReconnect now =>
      left; simp only [step]; split_ifs <;> rfl
  | socketClosed =>
      left
      simp only [step]
      rcases p.socketRef with _ | s
      · rfl
      · split_ifs <;> rfl

theorem sysStep_preserves (e : SEvent) (g : Bool × List CMState)
    (h : SysInv g) : SysInv (sysStep e g) := by
  obtain ⟨f, ps⟩ := g
  rcases hg : ps.get? (toPEvent e).1 with _ | p
  · intro q hq
    simp only [sysStep, hg] at hq ⊢
    exact h q hq
  · have hp : p ∈ ps := List.get?_mem hg
    have hInvP : Inv (f, p) := h p hp
    have hr : Inv (step (toPEvent e).2 (f, p)) :=
      step_preserves_Inv _ _ hInvP
    have hne : (toPEvent e).2 ≠ PEvent.unmountEv := by
      cases e <;> simp [toPEvent]
    intro q hq
    simp only [sysStep, hg] at hq ⊢
    rcases List.mem_or_eq_of_mem_set hq with hq1 | hq2
    · have hInvQ := h q hq1
      refine ⟨hInvQ.1, hInvQ.2.1, hInvQ.2.2.1, ?_⟩
      intro hmq
      have hf : f = true := hInvQ.2.2.2 hmq
      rcases step_flag _ f p hne with h1 | h1
      · rw [h1, hf]
      · exact h1
    · rw [hq2]
      exact hr
  
theorem sysFoldl_preserves (evts : List SEvent) (g : Bool × List CMState)
    (h : SysInv g) : SysInv (evts.foldl (fun g e => sysStep e g) g) := by
  induction evts generalizing g with
  | nil => exact h
  | cons e rest ih => exact ih _ (sysStep_preserves e g h)

/-- C5 (amended): with any number of concurrently mounted context-provider
owning contexts — the copy that carries the process-wide isProviderMounted
flag — at most one transport handle is ever held at a time (the reachable
count is in fact zero); and whenever the flag is set while an instance holds
no handle, its connectSocket declines without any state change or open
attempt.  The standalone hook copy performs no flag check, and concurrently
mounted hook contexts each open their own handle (see the counterexample on
the hook model below). -/
theorem singleton_invariant :
    (∀ (n : Nat) (evts : List SEvent), openHandles (runSystem n evts).2 ≤ 1)
  ∧ (∀ (now : Nat) (p : CMState),
        connectSocketA true now { p with socketRef := none }
          = ({ p with socketRef := none }, false)) := by
  constructor
  · intro n evts
    have h0 : SysInv (false, List.replicate n initialCM) := by
      intro p hp
      have hp0 : p = initialCM := List.eq_of_mem_replicate hp
      rw [hp0]
      exact ⟨rfl, rfl, rfl, fun hx => by cases hx⟩
    have h : SysInv (runSystem n evts) := sysFoldl_preserves evts _ h0
    have hz : openHandles (runSystem n evts).2 = 0 := by
      unfold openHandles
      rw [List.length_eq_zero, List.filter_eq_nil_iff]
      intro p hp
      have hnone : p.socketRef = none := (h p hp).1
      simp [hnone]
    omega
  · intro now p
    simp [connectSocketA]

end Singleton

namespace Hook

/-- Client Connection State of the standalone useWebSocket hook copy: the same
refs as the provider but no process-wide flag and no rate-limit timestamp.
The openAttempts field records the times of actual WebSocket constructions;
pendingDelay records the delay of the currently scheduled backoff timer. -/
structure HookState where
  isUnmounting : Bool
  socketRef : Option ReadyState
  reconnectTimeout : Bool
  pendingDelay : Option Nat
  reconnectAttempts : Nat
  openAttempts : List Nat
deriving DecidableEq

/-- State of a hook instance before its component mounts. -/
def initialHook : HookState where
  isUnmounting := false
  socketRef := none
  reconnectTimeout := false
  pendingDelay := none
  reconnectAttempts := 0
  openAttempts := []

/-- The hook's connectSocket, guards in source order: unmounting — decline;
handle already OPEN or CONNECTING — decline; otherwise detach the old handle's
close handler, close it, and construct a new WebSocket.  There is no
process-wide flag check and no rate limiting in this copy. -/
def hookConnectSocket (now : Nat) (h : HookState) : HookState :=
  if h.isUnmounting = true then h
  else if Provider.isOpenOrConnecting h.socketRef = true then h
  else { h with socketRef := some ReadyState.CONNECTING
                openAttempts := h.openAttempts ++ [now] }

/-- Events of one hook instance, as in use-websocket.tsx: the mount effect,
teardown, the visibilitychange listener, the backoff timer firing, the socket
close event and the exposed manual reconnect. -/
inductive HEvent
  | mount (now : Nat)
  | unmountEv
  | visibility (now : Nat)
  | timerFire (now : Nat)
  | manualReconnect (now : Nat)
  | socketClosed

/-- One event of a hook instance.  The close handler increments the attempt
counter and schedules a retry after Backoff.backoffDelay of the new counter;
the timer event clears the pending timer and reconnects unless unmounting. -/
def hookStep : HEvent → HookState → HookState
  | .mount now, h =>
      hookConnectSocket now { h with isUnmounting := false }
  | .unmountEv, h =>
      { h with isUnmounting := true, reconnectTimeout := false
               pendingDelay := none, socketRef := none }
  | .visibility now, h =>
      if Provider.isOpenOrConnecting h.socketRef = false then
        hookConnectSocket now
          { h with reconnectTimeout := false, pendingDelay := none }
      else h
  | .timerFire now, h =>
      if h.reconnectTimeout = true then
        if h.isUnmounting = true then
          { h with reconnectTimeout := false, pendingDelay := none }
        else
          hookConnectSocket now
            { h with reconnectTimeout := false, pendingDelay := none }
      else h
  | .manualReconnect now, h =>
      hookConnectSocket now
        { h with reconnectAttempts := 0, socketRef := none
                 reconnectTimeout := false, pendingDelay := none }
  | .socketClosed, h =>
      match h.socketRef with
      | none => h
      | some _ =>
        if h.isUnmounting = true then { h with socketRef := some ReadyState.CLOSED }
        else
          if h.reconnectTimeout = false then
            { h with socketRef := some ReadyState.CLOSED
                     reconnectAttempts := h.reconnectAttempts + 1
                     reconnectTimeout := true
                     pendingDelay := some (Backoff.backoffDelay (h.reconnectAttempts + 1)) }
          else { h with socketRef := some ReadyState.CLOSED }

/-- Run of one hook instance over a sequence of its events. -/
def runHook (evts : List HEvent) : HookState :=
  evts.foldl (fun h e => hookStep e h) initialHook

/-- Number of hook instances of a runtime currently holding a handle that is
open or connecting.  Hook instances share no state, so a runtime with several
mounted hook contexts is exactly the list of their independent states. -/
def hookOpenHandles (hs : List HookState) : Nat :=
  (hs.filter (fun h => Provider.isOpenOrConnecting h.socketRef)).length

/-- C5 counterexample: two concurrently mounted owning contexts that use the
standalone hook copy (cited by the claim) each pass its guards — this copy
checks no process-wide ownership flag — so after the two mount effects two
transport handles are open or connecting at the same time, refuting the
at-most-one invariant as stated. -/
theorem hook_two_concurrent_handles :
    Provider.isOpenOrConnecting (runHook [HEvent.mount 0]).socketRef = true
  ∧ Provider.isOpenOrConnecting (runHook [HEvent.mount 10]).socketRef = true
  ∧ hookOpenHandles [runHook [HEvent.mount 0], runHook [HEvent.mount 10]] = 2
  ∧ ¬ hookOpenHandles [runHook [HEvent.mount 0], runHook [HEvent.mount 10]] ≤ 1 := by
  decide

/-- C6 counterexample: in the standalone hook copy (cited by the claim), a
mount at t = 0 performs a real transport open; the connection fails and closes
at t = 50, which schedules a 1000 ms backoff retry; the timer fires at
t = 1050 and connectSocket performs a second real transport open — two actual
open attempts 1050 ms apart, with the second initiated less than 3000 ms after
the first and not rejected. -/
theorem hook_second_open_within_3000ms :
    (runHook [HEvent.mount 0, HEvent.socketClosed]).pendingDelay = some 1000
  ∧ (runHook [HEvent.mount 0, HEvent.socketClosed, HEvent.timerFire 1050]).openAttempts
      = [0, 1050]
  ∧ 1050 - 0 < 3000 := by
  decide

end Hook
